import Mathlib

/-!
Shallow embedding of the answer-type conversion engine of the
form-autopopulation-service repository:

* the generic answer formatter and QuestionnaireResponse assembler
  (libs/fhir-questionnaire-converter/src/lib/answer-formatter.ts and
  fhir-questionnaire-converter.ts), and
* the schema-aware Wegovy converter and its validator
  (libs/fhir-converters/src/lib/questionnaire-response/wegovy-converter.ts
  with helpers from types/wegovy-ai-output.type.ts and
  types/questionnaire-response.type.ts).

JS numbers are modelled as rationals; undefined/null answers seen by the
validator are modelled as Option; the wall-clock timestamp produced by
new Date().toISOString() is modelled as an explicit parameter.
-/

/-- Raw answer value of one input item: string | number | boolean | string[].
JS numbers are modelled as rationals. -/
inductive AnswerValue where
  | str (s : String)
  | num (q : ℚ)
  | bool (b : Bool)
  | strArray (xs : List String)
deriving DecidableEq, Repr

/-- JS String.prototype.toLowerCase, lowering each character (kernel-reducible
replacement for String.toLower, which is definitionally equal on the mapped
character list). -/
def jsToLowerCase (s : String) : String := String.mk (s.data.map Char.toLower)

/-- Terminology coding triple carried by a valueCoding answer. -/
structure FhirCoding where
  system : String
  code : String
  display : String
deriving DecidableEq, Repr

/-- One FHIR answer variant; each field mirrors one optional value* key of the
TS FhirAnswer interface, absent keys being none. -/
structure FhirAnswer where
  valueString : Option String := none
  valueInteger : Option ℚ := none
  valueDecimal : Option ℚ := none
  valueBoolean : Option Bool := none
  valueCoding : Option FhirCoding := none
deriving DecidableEq, Repr

/-- Embedding of formatAnswer from answer-formatter.ts.  Arrays map each
element to a plain valueString; booleans wrap as valueBoolean; numbers use
valueInteger when Number.isInteger holds (den = 1 on the rational model) and
valueDecimal otherwise; scalar strings are matched case-insensitively against
the gender vocabulary and otherwise become a valueString. -/
def formatAnswer : AnswerValue → List FhirAnswer
  | AnswerValue.strArray answer =>
      answer.map (fun item => { valueString := some item })
  | AnswerValue.bool answer => [{ valueBoolean := some answer }]
  | AnswerValue.num answer =>
      if answer.den = 1 then [{ valueInteger := some answer }]
      else [{ valueDecimal := some answer }]
  | AnswerValue.str answer =>
      let stringAnswer := answer
      let lowerAnswer := jsToLowerCase stringAnswer
      if ["male", "female", "other", "unknown"].contains lowerAnswer then
        [{ valueCoding := some
            { system := "http://hl7.org/fhir/administrative-gender"
              code := lowerAnswer
              display := stringAnswer } }]
      else
        [{ valueString := some stringAnswer }]

/-- One input item of the generic converter (types.ts QuestionnaireOutputItem). -/
structure QuestionnaireOutputItem where
  question_id : String
  question_text : String
  answer : AnswerValue
deriving DecidableEq, Repr

/-- Metadata of the generic converter (types.ts QuestionnaireResponseMetadata). -/
structure QuestionnaireResponseMetadata where
  formId : String
  patientId : String
  timestamp : String
deriving DecidableEq, Repr

/-- Output item of the generic converter; the answer list is always present. -/
structure FhirQuestionnaireResponseItem where
  linkId : String
  text : String
  answer : List FhirAnswer
deriving DecidableEq, Repr

/-- A FHIR reference object. -/
structure FhirReference where
  reference : String
deriving DecidableEq, Repr

/-- The meta block of an assembled response. -/
structure ResourceMeta where
  profile : List String
  lastUpdated : String
deriving DecidableEq, Repr

/-- Assembled envelope of the generic converter. -/
structure FhirQuestionnaireResponse where
  resourceType : String
  status : String
  questionnaire : String
  subject : FhirReference
  authored : String
  item : List FhirQuestionnaireResponseItem
  meta : ResourceMeta
deriving DecidableEq, Repr

/-- Embedding of convertToQuestionnaireResponse from
fhir-questionnaire-converter.ts.  The now argument models the wall-clock
instant written into meta.lastUpdated by new Date().toISOString(). -/
def convertToQuestionnaireResponse
    (questionnaireOutput : List QuestionnaireOutputItem)
    (metadata : QuestionnaireResponseMetadata) (now : String) :
    FhirQuestionnaireResponse :=
  let items : List FhirQuestionnaireResponseItem :=
    questionnaireOutput.map (fun item =>
      { linkId := item.question_id
        text := item.question_text
        answer := formatAnswer item.answer })
  { resourceType := "QuestionnaireResponse"
    status := "completed"
    questionnaire := "Questionnaire/" ++ metadata.formId
    subject := { reference := "Patient/" ++ metadata.patientId }
    authored := metadata.timestamp
    item := items
    meta :=
      { profile :=
          ["http://hl7.org/fhir/uv/sdc/StructureDefinition/sdc-questionnaireresponse"]
        lastUpdated := now } }

/-- Declared answer type of a Wegovy question (wegovy-converter.ts). -/
inductive QType where
  | boolean
  | decimal
  | integer
  | string
  | choice
  | text
deriving DecidableEq, Repr

/-- Embedding of QUESTION_TYPE_MAP from wegovy-converter.ts, in declaration
order; lookup falls back to QType.string for unknown ids. -/
def QUESTION_TYPE_MAP : List (String × QType) :=
  [("patient-age", QType.integer),
   ("patient-gender", QType.choice),
   ("current-bmi", QType.decimal),
   ("bmi-criteria", QType.boolean),
   ("weight-related-comorbidities", QType.choice),
   ("baseline-weight", QType.decimal),
   ("pregnancy-status", QType.boolean),
   ("breastfeeding-status", QType.boolean),
   ("personal-medullary-thyroid-cancer", QType.boolean),
   ("family-medullary-thyroid-cancer", QType.boolean),
   ("multiple-endocrine-neoplasia-syndrome", QType.boolean),
   ("pancreatitis-history", QType.boolean),
   ("diabetic-retinopathy", QType.boolean),
   ("gallbladder-disease", QType.boolean),
   ("kidney-disease", QType.boolean),
   ("lifestyle-interventions", QType.boolean),
   ("lifestyle-intervention-details", QType.text),
   ("previous-weight-loss-medications", QType.choice),
   ("previous-medication-response", QType.choice),
   ("prescriber-specialty", QType.string),
   ("prescriber-name", QType.string),
   ("prescriber-npi", QType.string),
   ("requested-dose", QType.choice),
   ("duration-of-therapy", QType.choice),
   ("monitoring-plan", QType.text),
   ("recent-labs", QType.boolean),
   ("consultation-notes", QType.boolean),
   ("additional-clinical-notes", QType.text),
   ("medical-necessity", QType.boolean),
   ("attestation-date", QType.string)]

/-- Embedding of CHOICE_MAPPINGS from wegovy-converter.ts: per-question maps
from raw choice string to terminology coding. -/
def CHOICE_MAPPINGS : List (String × List (String × FhirCoding)) :=
  [("patient-gender",
    [("Male",
      { system := "http://hl7.org/fhir/administrative-gender", code := "male",
        display := "Male" }),
     ("Female",
      { system := "http://hl7.org/fhir/administrative-gender", code := "female",
        display := "Female" }),
     ("Other",
      { system := "http://hl7.org/fhir/administrative-gender", code := "other",
        display := "Other" })]),
   ("weight-related-comorbidities",
    [("Type 2 diabetes mellitus",
      { system := "http://snomed.info/sct", code := "44054006",
        display := "Type 2 diabetes mellitus" }),
     ("Hypertension",
      { system := "http://snomed.info/sct", code := "38341003",
        display := "Hypertension" }),
     ("Hypercholesterolemia",
      { system := "http://snomed.info/sct", code := "13644009",
        display := "Hypercholesterolemia" }),
     ("Sleep apnea",
      { system := "http://snomed.info/sct", code := "73430006",
        display := "Sleep apnea" }),
     ("Anemia",
      { system := "http://snomed.info/sct", code := "271737000",
        display := "Anemia" }),
     ("History of myocardial infarction",
      { system := "http://snomed.info/sct", code := "399211009",
        display := "History of myocardial infarction" }),
     ("Stroke",
      { system := "http://snomed.info/sct", code := "230690007",
        display := "Stroke" })]),
   ("previous-weight-loss-medications",
    [("Orlistat",
      { system := "http://www.nlm.nih.gov/research/umls/rxnorm", code := "37925",
        display := "Orlistat" }),
     ("Phentermine/Topiramate",
      { system := "http://www.nlm.nih.gov/research/umls/rxnorm", code := "1551467",
        display := "Phentermine/Topiramate" }),
     ("Naltrexone/Bupropion",
      { system := "http://www.nlm.nih.gov/research/umls/rxnorm", code := "1551393",
        display := "Naltrexone/Bupropion" }),
     ("Liraglutide",
      { system := "http://www.nlm.nih.gov/research/umls/rxnorm", code := "1658717",
        display := "Liraglutide" })]),
   ("requested-dose",
    [("Semaglutide 0.25 mg/0.5 mL prefilled pen",
      { system := "http://www.nlm.nih.gov/research/umls/rxnorm", code := "2599543",
        display := "Semaglutide 0.25 mg/0.5 mL prefilled pen" }),
     ("Semaglutide 0.5 mg/0.5 mL prefilled pen",
      { system := "http://www.nlm.nih.gov/research/umls/rxnorm", code := "2599549",
        display := "Semaglutide 0.5 mg/0.5 mL prefilled pen" }),
     ("Semaglutide 1 mg/0.5 mL prefilled pen",
      { system := "http://www.nlm.nih.gov/research/umls/rxnorm", code := "2599555",
        display := "Semaglutide 1 mg/0.5 mL prefilled pen" }),
     ("Semaglutide 1.7 mg/0.75 mL prefilled pen",
      { system := "http://www.nlm.nih.gov/research/umls/rxnorm", code := "2599561",
        display := "Semaglutide 1.7 mg/0.75 mL prefilled pen" }),
     ("Semaglutide 2.4 mg/0.75 mL prefilled pen",
      { system := "http://www.nlm.nih.gov/research/umls/rxnorm", code := "2599567",
        display := "Semaglutide 2.4 mg/0.75 mL prefilled pen" })])]

/-- One Wegovy AI output item (wegovy-ai-output.type.ts). -/
structure WegovyAiOutputItem where
  question_id : String
  question_text : String
  answer : AnswerValue
deriving DecidableEq, Repr

/-- Digit list to natural number, most significant first. -/
def digitsVal (cs : List Char) : Nat :=
  cs.foldl (fun n c => 10 * n + (c.toNat - 48)) 0

/-- Model of JS parseFloat on the strings this code feeds it: optional leading
whitespace and sign, then decimal digits with an optional fractional part;
trailing characters are ignored.  Exponents and Infinity are not modelled (no
question in this repository produces them).  Returns none where parseFloat
returns NaN, in particular on the empty string. -/
def jsParseFloat (s : String) : Option ℚ :=
  let cs := s.data.dropWhile (fun c => c = ' ' ∨ c = '\t' ∨ c = '\n' ∨ c = '\r')
  let signAndRest : ℚ × List Char :=
    match cs with
    | '-' :: rest => (-1, rest)
    | '+' :: rest => (1, rest)
    | rest => (1, rest)
  let intDigits := signAndRest.2.takeWhile Char.isDigit
  let afterInt := signAndRest.2.dropWhile Char.isDigit
  let fracDigits :=
    match afterInt with
    | '.' :: rest => rest.takeWhile Char.isDigit
    | _ => []
  if intDigits.isEmpty ∧ fracDigits.isEmpty then none
  else
    some (signAndRest.1 *
      ((digitsVal intDigits : ℚ) +
        mkRat (digitsVal fracDigits) (10 ^ fracDigits.length)))

/-- Model of JS Math.round: the floor of the value plus one half, computed on
the numerator and denominator so that the kernel can evaluate it. -/
def jsRound (q : ℚ) : ℤ := Int.fdiv (2 * q.num + q.den) (2 * q.den)

/-- JS String(b) for a boolean. -/
def jsStringOfBool (b : Bool) : String := if b then "true" else "false"

/-- JS String(n) for a number, exact for integral values; non-integral values
are rendered as Lean rationals (no claim depends on that rendering, only on
the string being nonempty). -/
def jsStringOfNumber (q : ℚ) : String :=
  if q.den = 1 then toString q.num else toString q

/-- Embedding of getAnswerAsString from wegovy-ai-output.type.ts: strings pass
through, arrays join with a comma and space, other values stringify. -/
def getAnswerAsString (item : WegovyAiOutputItem) : String :=
  match item.answer with
  | AnswerValue.str s => s
  | AnswerValue.strArray xs => String.intercalate ", " xs
  | AnswerValue.num q => jsStringOfNumber q
  | AnswerValue.bool b => jsStringOfBool b

/-- Embedding of getAnswerAsBoolean: booleans pass through; strings match a
small yes/no vocabulary case-insensitively; anything else gives null. -/
def getAnswerAsBoolean (item : WegovyAiOutputItem) : Option Bool :=
  match item.answer with
  | AnswerValue.bool b => some b
  | AnswerValue.str s =>
      let lower := jsToLowerCase s
      if lower = "true" ∨ lower = "yes" ∨ lower = "1" then some true
      else if lower = "false" ∨ lower = "no" ∨ lower = "0" then some false
      else none
  | _ => none

/-- Embedding of getAnswerAsNumber: numbers pass through; strings go through
parseFloat with NaN mapped to null; anything else gives null. -/
def getAnswerAsNumber (item : WegovyAiOutputItem) : Option ℚ :=
  match item.answer with
  | AnswerValue.num q => some q
  | AnswerValue.str s => jsParseFloat s
  | _ => none

/-- Embedding of getAnswerAsStringArray: arrays pass through; any scalar
becomes a one-element array of its string form. -/
def getAnswerAsStringArray (item : WegovyAiOutputItem) : List String :=
  match item.answer with
  | AnswerValue.strArray xs => xs
  | _ => [getAnswerAsString item]

/-- Output item of the Wegovy converter; the answer field is only set when at
least one answer was produced (questionnaire-response.type.ts
QuestionnaireResponseItemInput). -/
structure QuestionnaireResponseItemInput where
  linkId : String
  text : String
  answer : Option (List FhirAnswer) := none
deriving DecidableEq, Repr

/-- Embedding of convertWegovyItemToFhir from wegovy-converter.ts: dispatch on
the declared question type, defaulting to string, and attach the produced
answers only when the list is nonempty. -/
def convertWegovyItemToFhir (item : WegovyAiOutputItem) :
    QuestionnaireResponseItemInput :=
  let questionType := (QUESTION_TYPE_MAP.lookup item.question_id).getD QType.string
  let answers : List FhirAnswer :=
    match questionType with
    | QType.boolean =>
        match getAnswerAsBoolean item with
        | some boolValue => [{ valueBoolean := some boolValue }]
        | none => []
    | QType.decimal =>
        match getAnswerAsNumber item with
        | some numberValue => [{ valueDecimal := some numberValue }]
        | none => []
    | QType.integer =>
        match getAnswerAsNumber item with
        | some numberValue => [{ valueInteger := some ((jsRound numberValue : ℤ) : ℚ) }]
        | none => []
    | QType.choice =>
        let choiceValues := getAnswerAsStringArray item
        let choiceMapping := CHOICE_MAPPINGS.lookup item.question_id
        choiceValues.map (fun value =>
          match choiceMapping.bind (fun m => m.lookup value) with
          | some coding => { valueCoding := some coding }
          | none => { valueString := some value })
    | QType.text =>
        let stringValue := getAnswerAsString item
        if stringValue ≠ "" then [{ valueString := some stringValue }] else []
    | QType.string =>
        let stringValue := getAnswerAsString item
        if stringValue ≠ "" then [{ valueString := some stringValue }] else []
  { linkId := item.question_id
    text := item.question_text
    answer := if answers.length > 0 then some answers else none }

/-- Options record of convertWegovyToQuestionnaireResponse. -/
structure WegovyConvertOptions where
  questionnaireId : Option String := none
  status : Option String := none
  authorId : Option String := none
  encounterId : Option String := none
deriving DecidableEq, Repr

/-- Assembled Wegovy QuestionnaireResponse
(questionnaire-response.type.ts QuestionnaireResponseInput). -/
structure QuestionnaireResponseInput where
  resourceType : String
  status : String
  questionnaire : String
  subject : FhirReference
  authored : String
  author : Option FhirReference := none
  encounter : Option FhirReference := none
  item : List QuestionnaireResponseItemInput
  meta : ResourceMeta
deriving DecidableEq, Repr

/-- Default questionnaire id of the Wegovy converter. -/
def WEGOVY_QUESTIONNAIRE_ID : String := "wegovy-prior-auth"

/-- Embedding of convertWegovyToQuestionnaireResponse from wegovy-converter.ts
composed with createQuestionnaireResponseBase from
questionnaire-response.type.ts.  The now argument models the wall-clock
instants written into authored and meta.lastUpdated by
new Date().toISOString(). -/
def convertWegovyToQuestionnaireResponse (wegovyOutput : List WegovyAiOutputItem)
    (patientId : String) (options : WegovyConvertOptions) (now : String) :
    QuestionnaireResponseInput :=
  let questionnaireId := options.questionnaireId.getD WEGOVY_QUESTIONNAIRE_ID
  let status := options.status.getD "completed"
  { resourceType := "QuestionnaireResponse"
    status := status
    questionnaire := "Questionnaire/" ++ questionnaireId
    subject := { reference := "Patient/" ++ patientId }
    authored := now
    author := options.authorId.map (fun a => { reference := "Practitioner/" ++ a })
    encounter := options.encounterId.map (fun e => { reference := "Encounter/" ++ e })
    item := wegovyOutput.map (fun item => convertWegovyItemToFhir item)
    meta :=
      { profile :=
          ["http://hl7.org/fhir/uv/sdc/StructureDefinition/sdc-questionnaireresponse"]
        lastUpdated := now } }

/-- Validator input item: the answer is Option-valued because the validator
explicitly tests for an undefined or null answer. -/
structure WegovyValidationItem where
  question_id : String
  question_text : String
  answer : Option AnswerValue
deriving DecidableEq, Repr

/-- Validator input: either not an array at all (the null of the unit tests)
or an array of items. -/
inductive WegovyValidationInput where
  | nonArray
  | array (items : List WegovyValidationItem)
deriving DecidableEq, Repr

/-- Result record of validateWegovyOutput. -/
structure ValidationResult where
  isValid : Bool
  errors : List String
deriving DecidableEq, Repr

/-- The required question ids of validateWegovyOutput, in declaration order. -/
def requiredQuestions : List String :=
  ["patient-age", "patient-gender", "current-bmi", "bmi-criteria",
   "medical-necessity", "attestation-date"]

/-- Question ids present in the input, in input order. -/
def presentQuestionIdsOf (items : List WegovyValidationItem) : List String :=
  items.map (fun item => item.question_id)

/-- Required ids absent from the input, in declaration order of
requiredQuestions (the filter keeps that order). -/
def missingRequiredOf (items : List WegovyValidationItem) : List String :=
  requiredQuestions.filter (fun id => !((presentQuestionIdsOf items).contains id))

/-- Per-item field errors pushed by the forEach of validateWegovyOutput, for
the item at 0-based input position index: a falsy (empty) question_id or
question_text and an undefined or null answer each yield one error string. -/
def wegovyItemErrors (index : Nat) (item : WegovyValidationItem) : List String :=
  (if item.question_id = "" then
    ["Item " ++ toString index ++ ": missing question_id"] else []) ++
  (if item.question_text = "" then
    ["Item " ++ toString index ++ ": missing question_text"] else []) ++
  (if item.answer = none then
    ["Item " ++ toString index ++ ": missing answer"] else [])

/-- Embedding of validateWegovyOutput from wegovy-converter.ts: non-array and
empty inputs short-circuit with a single error; otherwise the combined
missing-required error (if any) is followed by the per-item errors in input
order, and isValid is the emptiness of the error list. -/
def validateWegovyOutput : WegovyValidationInput → ValidationResult
  | WegovyValidationInput.nonArray =>
      { isValid := false, errors := ["Wegovy output must be an array"] }
  | WegovyValidationInput.array wegovyOutput =>
      if wegovyOutput.length = 0 then
        { isValid := false, errors := ["Wegovy output cannot be empty"] }
      else
        let missingRequired := missingRequiredOf wegovyOutput
        let requiredErrors :=
          if missingRequired.length > 0 then
            ["Missing required questions: " ++ String.intercalate ", " missingRequired]
          else []
        let errors := requiredErrors ++
          (wegovyOutput.enum.flatMap (fun p => wegovyItemErrors p.1 p.2))
        { isValid := errors.length == 0, errors := errors }

/-- None of the four per-question choice maps has the empty string as a key,
so a choice lookup of the empty string always falls through, whatever the
question id. -/
lemma choiceMappings_lookup_empty_string (qid : String) :
    ((CHOICE_MAPPINGS.lookup qid).bind (fun m => m.lookup "")) = none := by
  simp only [CHOICE_MAPPINGS, List.lookup]
  repeat' split
  all_goals rfl

/-- An empty-string answer reads as null through the boolean accessor. -/
lemma getAnswerAsBoolean_empty (qid qtext : String) :
    getAnswerAsBoolean
      { question_id := qid, question_text := qtext,
        answer := AnswerValue.str "" } = none := rfl

/-- An empty-string answer reads as null through the number accessor, since
parseFloat of the empty string is NaN. -/
lemma getAnswerAsNumber_empty (qid qtext : String) :
    getAnswerAsNumber
      { question_id := qid, question_text := qtext,
        answer := AnswerValue.str "" } = none := rfl

/-- An empty-string answer reads back as the empty string. -/
lemma getAnswerAsString_empty (qid qtext : String) :
    getAnswerAsString
      { question_id := qid, question_text := qtext,
        answer := AnswerValue.str "" } = "" := rfl

/-- An empty-string answer reads as a one-element array of the empty string
through the array accessor. -/
lemma getAnswerAsStringArray_empty (qid qtext : String) :
    getAnswerAsStringArray
      { question_id := qid, question_text := qtext,
        answer := AnswerValue.str "" } = [""] := rfl

/-- C1 counterexample: the array element "Female" is not sent through the
scalar-string rule; formatAnswer maps it to a plain valueString, which differs
from what the scalar rule produces on the same string. -/
theorem c1_array_gender_counterexample :
    formatAnswer (AnswerValue.strArray ["Female"]) = [{ valueString := some "Female" }] ∧
    formatAnswer (AnswerValue.str "Female") =
      [{ valueCoding := some
          { system := "http://hl7.org/fhir/administrative-gender"
            code := "female"
            display := "Female" } }] ∧
    formatAnswer (AnswerValue.strArray ["Female"]) ≠
      formatAnswer (AnswerValue.str "Female") :=
  ⟨by decide, by decide, by decide⟩

/-- C1 (amended): for a sequence-of-strings input of length N, formatAnswer
returns a list of length N in the same order whose element i is a plain
valueString holding input element i unchanged; array elements never go
through the gender-vocabulary match. -/
theorem c1_array_elementwise (xs : List String) :
    (formatAnswer (AnswerValue.strArray xs)).length = xs.length ∧
    ∀ i : Nat, (formatAnswer (AnswerValue.strArray xs))[i]? =
      (xs[i]?).map (fun s => { valueString := some s }) := by
  refine ⟨by simp [formatAnswer], fun i => ?_⟩
  simp [formatAnswer]

/-- C3: a numeric answer always yields exactly one variant; it is a
valueInteger exactly when the rational is a mathematical integer (den = 1,
which is equivalent to being an integer cast), a valueDecimal otherwise;
negation does not change the classification, and zero is integer zero. -/
theorem c3_numeric_classification (q : ℚ) :
    (formatAnswer (AnswerValue.num q)).length = 1 ∧
    formatAnswer (AnswerValue.num q) =
      (if q.den = 1 then [{ valueInteger := some q }] else [{ valueDecimal := some q }]) ∧
    (q.den = 1 ↔ ∃ n : ℤ, q = (n : ℚ)) ∧
    formatAnswer (AnswerValue.num (-q)) =
      (if q.den = 1 then [{ valueInteger := some (-q) }] else [{ valueDecimal := some (-q) }]) ∧
    formatAnswer (AnswerValue.num 0) = [{ valueInteger := some 0 }] := by
  refine ⟨?_, rfl, ?_, ?_, by decide⟩
  · simp only [formatAnswer]
    split <;> rfl
  · constructor
    · intro h
      exact ⟨q.num, ((Rat.den_eq_one_iff q).mp h).symm⟩
    · rintro ⟨n, rfl⟩
      exact Rat.den_intCast n
  · simp only [formatAnswer, Rat.neg_den]

/-- C4: a scalar string whose lowercase form is in the gender vocabulary
yields exactly one valueCoding with the fixed administrative-gender system,
lowercase code and original casing as display; any other scalar string yields
exactly one valueString holding the string unchanged. -/
theorem c4_gender_vocabulary (s : String) :
    (jsToLowerCase s ∈ ["male", "female", "other", "unknown"] →
      formatAnswer (AnswerValue.str s) =
        [{ valueCoding := some
            { system := "http://hl7.org/fhir/administrative-gender"
              code := jsToLowerCase s
              display := s } }]) ∧
    (jsToLowerCase s ∉ ["male", "female", "other", "unknown"] →
      formatAnswer (AnswerValue.str s) = [{ valueString := some s }]) := by
  constructor
  · intro h
    simp only [formatAnswer]
    rw [if_pos]
    exact List.elem_eq_true_of_mem h
  · intro h
    simp only [formatAnswer]
    rw [if_neg]
    intro hc
    exact h (List.mem_of_elem_eq_true hc)

/-- C4 witness: the vocabulary branch at "Female" and the fallback branch at
a prescriber name. -/
theorem c4_gender_vocabulary_witness :
    formatAnswer (AnswerValue.str "Female") =
      [{ valueCoding := some
          { system := "http://hl7.org/fhir/administrative-gender"
            code := "female"
            display := "Female" } }] ∧
    formatAnswer (AnswerValue.str "Dr. Sarah Johnson") =
      [{ valueString := some "Dr. Sarah Johnson" }] :=
  ⟨(c4_gender_vocabulary "Female").1 (by decide),
   (c4_gender_vocabulary "Dr. Sarah Johnson").2 (by decide)⟩

/-- C5: the assembled envelope fixes resourceType, status completed, the
Questionnaire and Patient references, the verbatim authored timestamp and the
one-element SDC profile list. -/
theorem c5_assembler_envelope (out : List QuestionnaireOutputItem)
    (metadata : QuestionnaireResponseMetadata) (now : String) :
    (convertToQuestionnaireResponse out metadata now).resourceType =
      "QuestionnaireResponse" ∧
    (convertToQuestionnaireResponse out metadata now).status = "completed" ∧
    (convertToQuestionnaireResponse out metadata now).questionnaire =
      "Questionnaire/" ++ metadata.formId ∧
    (convertToQuestionnaireResponse out metadata now).subject.reference =
      "Patient/" ++ metadata.patientId ∧
    (convertToQuestionnaireResponse out metadata now).authored =
      metadata.timestamp ∧
    (convertToQuestionnaireResponse out metadata now).meta.profile =
      ["http://hl7.org/fhir/uv/sdc/StructureDefinition/sdc-questionnaireresponse"] :=
  ⟨rfl, rfl, rfl, rfl, rfl, rfl⟩

/-- C2 counterexample: through the full Wegovy pipeline, an item with the
choice-typed question patient-gender and an empty-string answer comes out
with an answer field that is present and holds valueString of the empty
string, not an absent answer field. -/
theorem c2_choice_empty_counterexample :
    ((convertWegovyToQuestionnaireResponse
        [{ question_id := "patient-gender", question_text := "Patient Gender",
           answer := AnswerValue.str "" }]
        "patient-456" {} "2025-09-13T10:00:00Z").item.map
      (fun it => it.answer)) = [some [{ valueString := some "" }]] := by decide

/-- C2 (amended): for an item whose answer is the empty string, the item
converter omits the answer field entirely whenever the question type mapped
from the question id (defaulting to string) is not choice; a choice-typed
question instead keeps a present answer list holding valueString of the
empty string. -/
theorem c2_empty_string_suppression (item : WegovyAiOutputItem)
    (h : item.answer = AnswerValue.str "") :
    (convertWegovyItemToFhir item).answer =
      (if (QUESTION_TYPE_MAP.lookup item.question_id).getD QType.string = QType.choice
       then some [{ valueString := some "" }]
       else none) := by
  obtain ⟨qid, qtext, ans⟩ := item
  dsimp only at h
  subst h
  rcases htype : (QUESTION_TYPE_MAP.lookup qid).getD QType.string with _ | _ | _ | _ | _ | _
  · simp only [convertWegovyItemToFhir, htype, getAnswerAsBoolean_empty]
    decide
  · simp only [convertWegovyItemToFhir, htype, getAnswerAsNumber_empty]
    decide
  · simp only [convertWegovyItemToFhir, htype, getAnswerAsNumber_empty]
    decide
  · simp only [convertWegovyItemToFhir, htype, getAnswerAsString_empty]
    decide
  · simp only [convertWegovyItemToFhir, htype, getAnswerAsStringArray_empty,
      List.map_cons, List.map_nil, choiceMappings_lookup_empty_string]
    decide
  · simp only [convertWegovyItemToFhir, htype, getAnswerAsString_empty]
    decide

/-- C2 witness: an integer-typed question with empty-string answer has its
answer field omitted. -/
theorem c2_empty_string_witness :
    (convertWegovyItemToFhir
      { question_id := "patient-age", question_text := "Patient Age",
        answer := AnswerValue.str "" }).answer = none :=
  (c2_empty_string_suppression
    { question_id := "patient-age", question_text := "Patient Age",
      answer := AnswerValue.str "" } rfl).trans (by decide)

/-- C6: the two-element comorbidities array yields two valueStrings in input
order under the generic formatter, and the two SNOMED valueCodings in input
order under the schema-aware converter; a choice value absent from the coding
table falls back to a valueString instead of failing. -/
theorem c6_comorbidities_conversion :
    formatAnswer (AnswerValue.strArray ["Type 2 diabetes mellitus", "Hypertension"]) =
      [{ valueString := some "Type 2 diabetes mellitus" },
       { valueString := some "Hypertension" }] ∧
    (convertWegovyItemToFhir
      { question_id := "weight-related-comorbidities",
        question_text := "Weight-related comorbidities (select all that apply)",
        answer := AnswerValue.strArray ["Type 2 diabetes mellitus", "Hypertension"] }).answer =
      some [{ valueCoding := some
                { system := "http://snomed.info/sct", code := "44054006",
                  display := "Type 2 diabetes mellitus" } },
            { valueCoding := some
                { system := "http://snomed.info/sct", code := "38341003",
                  display := "Hypertension" } }] ∧
    ∀ v : String,
      ((CHOICE_MAPPINGS.lookup "weight-related-comorbidities").bind
        (fun m => m.lookup v)) = none →
      (convertWegovyItemToFhir
        { question_id := "weight-related-comorbidities",
          question_text := "Weight-related comorbidities (select all that apply)",
          answer := AnswerValue.strArray [v] }).answer =
        some [{ valueString := some v }] := by
  refine ⟨by decide, by decide, fun v hv => ?_⟩
  have hq : (QUESTION_TYPE_MAP.lookup "weight-related-comorbidities").getD QType.string =
      QType.choice := by decide
  simp only [convertWegovyItemToFhir, hq, getAnswerAsStringArray, List.map_cons,
    List.map_nil, hv]
  rfl

/-- C6 witness: a comorbidity value absent from the SNOMED table falls back
to a valueString. -/
theorem c6_comorbidities_witness :
    (convertWegovyItemToFhir
      { question_id := "weight-related-comorbidities",
        question_text := "Weight-related comorbidities (select all that apply)",
        answer := AnswerValue.strArray ["Asthma"] }).answer =
      some [{ valueString := some "Asthma" }] :=
  c6_comorbidities_conversion.2.2 "Asthma" (by decide)

/-- Appending different suffixes to the same prefix gives different strings. -/
lemma appendRightCancel {p s t : String} (h : p ++ s = p ++ t) : s = t := by
  have hd := congrArg String.data h
  simp only [String.data_append] at hd
  have hc := List.append_cancel_left hd
  cases s
  cases t
  exact congrArg String.mk hc

/-- Two per-item validator error strings with the same index but different
field suffixes are distinct. -/
lemma itemErrorNe (i : Nat) {s t : String} (h : s ≠ t) :
    ("Item " ++ toString i ++ s) ≠ ("Item " ++ toString i ++ t) :=
  fun he => h (appendRightCancel he)

/-- C7: a non-array input yields exactly the single must-be-an-array error,
an empty array yields exactly the single cannot-be-empty error, and on any
other input the missing required ids form a subsequence of the declaration
table, characterise exactly the required ids absent from the input, and are
reported as one combined comma-joined error placed first. -/
theorem c7_validator_short_circuit :
    validateWegovyOutput WegovyValidationInput.nonArray =
      { isValid := false, errors := ["Wegovy output must be an array"] } ∧
    validateWegovyOutput (WegovyValidationInput.array []) =
      { isValid := false, errors := ["Wegovy output cannot be empty"] } ∧
    ∀ items : List WegovyValidationItem, items ≠ [] →
      (missingRequiredOf items).Sublist requiredQuestions ∧
      (∀ id : String, id ∈ missingRequiredOf items ↔
        (id ∈ requiredQuestions ∧ id ∉ presentQuestionIdsOf items)) ∧
      (missingRequiredOf items ≠ [] →
        (validateWegovyOutput (WegovyValidationInput.array items)).errors.head? =
          some ("Missing required questions: " ++
            String.intercalate ", " (missingRequiredOf items))) := by
  refine ⟨rfl, rfl, fun items h => ⟨?_, fun id => ?_, fun hm => ?_⟩⟩
  · simp only [missingRequiredOf]
    exact List.filter_sublist _
  · simp only [missingRequiredOf, List.mem_filter, Bool.not_eq_true',
      List.contains, and_congr_right_iff]
    intro _
    rw [← Bool.not_eq_true, List.elem_iff]
  · have hlen : ¬ items.length = 0 := fun h0 => h (List.length_eq_zero.mp h0)
    simp only [validateWegovyOutput, if_neg hlen,
      if_pos (List.length_pos.mpr hm), List.singleton_append, List.head?_cons]

/-- C7 witness: the five absent required ids are reported as one combined
comma-joined error, first in the list, when only patient-age is supplied. -/
theorem c7_validator_witness :
    (validateWegovyOutput (WegovyValidationInput.array
      [{ question_id := "patient-age", question_text := "Age",
         answer := some (AnswerValue.num 45) }])).errors.head? =
      some ("Missing required questions: " ++
        "patient-gender, current-bmi, bmi-criteria, medical-necessity, attestation-date") :=
  (((c7_validator_short_circuit.2.2
    [{ question_id := "patient-age", question_text := "Age",
       answer := some (AnswerValue.num 45) }] (by decide)).2.2) (by decide)).trans
    (by decide)

/-- C8: for a non-empty array, isValid holds exactly when the error list is
empty; the error list is the combined missing-required error (when any)
followed by the per-item errors at each 0-based input position, independent
of earlier failures; and each per-item error of the form Item index: missing
field is present exactly when that field is missing, where only a null
answer (never an empty string) counts as a missing answer. -/
theorem c8_item_errors (items : List WegovyValidationItem) (h : items ≠ []) :
    ((validateWegovyOutput (WegovyValidationInput.array items)).isValid = true ↔
      (validateWegovyOutput (WegovyValidationInput.array items)).errors = []) ∧
    (validateWegovyOutput (WegovyValidationInput.array items)).errors =
      (if (missingRequiredOf items).length > 0 then
        ["Missing required questions: " ++
          String.intercalate ", " (missingRequiredOf items)]
       else []) ++
      items.enum.flatMap (fun p => wegovyItemErrors p.1 p.2) ∧
    (∀ i : Nat, ∀ item : WegovyValidationItem,
      (("Item " ++ toString i ++ ": missing answer") ∈ wegovyItemErrors i item ↔
        item.answer = none) ∧
      (("Item " ++ toString i ++ ": missing question_id") ∈ wegovyItemErrors i item ↔
        item.question_id = "") ∧
      (("Item " ++ toString i ++ ": missing question_text") ∈ wegovyItemErrors i item ↔
        item.question_text = "")) := by
  have hlen : ¬ items.length = 0 := fun h0 => h (List.length_eq_zero.mp h0)
  refine ⟨?_, ?_, fun i item => ?_⟩
  · simp only [validateWegovyOutput]
    rw [if_neg hlen]
    simp only [beq_iff_eq, List.length_eq_zero]
  · simp only [validateWegovyOutput]
    rw [if_neg hlen]
  · have e₁ := itemErrorNe i
      (show (": missing answer" : String) ≠ ": missing question_id" by decide)
    have e₂ := itemErrorNe i
      (show (": missing answer" : String) ≠ ": missing question_text" by decide)
    have e₃ := itemErrorNe i
      (show (": missing question_id" : String) ≠ ": missing answer" by decide)
    have e₄ := itemErrorNe i
      (show (": missing question_id" : String) ≠ ": missing question_text" by decide)
    have e₅ := itemErrorNe i
      (show (": missing question_text" : String) ≠ ": missing answer" by decide)
    have e₆ := itemErrorNe i
      (show (": missing question_text" : String) ≠ ": missing question_id" by decide)
    by_cases h1 : item.question_id = "" <;> by_cases h2 : item.question_text = "" <;>
      by_cases h3 : item.answer = none <;>
      simp [wegovyItemErrors, h1, h2, h3, e₁, e₂, e₃, e₄, e₅, e₆]

/-- Number of value* keys set on an answer variant. -/
def valueKeyCount (a : FhirAnswer) : Nat :=
  (if a.valueString.isSome then 1 else 0) +
  (if a.valueInteger.isSome then 1 else 0) +
  (if a.valueDecimal.isSome then 1 else 0) +
  (if a.valueBoolean.isSome then 1 else 0) +
  (if a.valueCoding.isSome then 1 else 0)

/-- C9: every answer variant emitted by the generic formatter on any input,
and every answer variant inside a present answer list emitted by the
schema-aware item converter on any item, has exactly one value* key set. -/
theorem c9_exactly_one_value (v : AnswerValue) (item : WegovyAiOutputItem) :
    (∀ a ∈ formatAnswer v, valueKeyCount a = 1) ∧
    (∀ answers : List FhirAnswer,
      (convertWegovyItemToFhir item).answer = some answers →
      ∀ a ∈ answers, valueKeyCount a = 1) := by
  constructor
  · intro a ha
    rcases v with s | q | b | xs
    · simp only [formatAnswer] at ha
      split at ha <;> (simp only [List.mem_singleton] at ha; subst ha; rfl)
    · simp only [formatAnswer] at ha
      split at ha <;> (simp only [List.mem_singleton] at ha; subst ha; rfl)
    · simp only [formatAnswer, List.mem_singleton] at ha
      subst ha
      rfl
    · simp only [formatAnswer, List.mem_map] at ha
      obtain ⟨s, _, rfl⟩ := ha
      rfl
  · intro answers hans a ha
    simp only [convertWegovyItemToFhir] at hans
    rcases htype : (QUESTION_TYPE_MAP.lookup item.question_id).getD QType.string
      with _ | _ | _ | _ | _ | _ <;> simp only [htype] at hans
    · rcases hb : getAnswerAsBoolean item with _ | b <;> simp only [hb] at hans
      · simp at hans
      · simp at hans
        subst hans
        simp only [List.mem_singleton] at ha
        subst ha
        rfl
    · rcases hn : getAnswerAsNumber item with _ | n <;> simp only [hn] at hans
      · simp at hans
      · simp at hans
        subst hans
        simp only [List.mem_singleton] at ha
        subst ha
        rfl
    · rcases hn : getAnswerAsNumber item with _ | n <;> simp only [hn] at hans
      · simp at hans
      · simp at hans
        subst hans
        simp only [List.mem_singleton] at ha
        subst ha
        rfl
    · split at hans
      · simp at hans
        subst hans
        simp only [List.mem_singleton] at ha
        subst ha
        rfl
      · simp at hans
    · split at hans
      · injection hans with hans
        subst hans
        simp only [List.mem_map] at ha
        obtain ⟨val, _, rfl⟩ := ha
        rcases hc : (CHOICE_MAPPINGS.lookup item.question_id).bind
            (fun m => m.lookup val) with _ | coding <;> simp only [hc] <;> rfl
      · simp at hans
    · split at hans
      · simp at hans
        subst hans
        simp only [List.mem_singleton] at ha
        subst ha
        rfl
      · simp at hans

/-- C9 witness: the boolean variants produced by both converters on a
concrete boolean answer carry exactly one value* key. -/
theorem c9_exactly_one_value_witness :
    valueKeyCount { valueBoolean := some true } = 1 ∧
    valueKeyCount
      { valueCoding := some
          { system := "http://hl7.org/fhir/administrative-gender", code := "female",
            display := "Female" } } = 1 :=
  ⟨(c9_exactly_one_value (AnswerValue.bool true)
      { question_id := "bmi-criteria", question_text := "BMI meets criteria",
        answer := AnswerValue.bool true }).1
    { valueBoolean := some true } (by decide),
   (c9_exactly_one_value (AnswerValue.bool true)
      { question_id := "patient-gender", question_text := "Patient Gender",
        answer := AnswerValue.str "Female" }).2
    [{ valueCoding := some
        { system := "http://hl7.org/fhir/administrative-gender", code := "female",
          display := "Female" } }] (by decide)
    { valueCoding := some
        { system := "http://hl7.org/fhir/administrative-gender", code := "female",
          display := "Female" } } (by decide)⟩

/-- C10: the schema-aware choice lookup for patient-gender is an exact,
case-sensitive match: the exact values Male, Female and Other map to the
administrative-gender codings, the table has no entry for Unknown or
unknown, and every other string (any other casing included) falls back to a
valueString. -/
theorem c10_case_sensitive_choice :
    (convertWegovyItemToFhir
      { question_id := "patient-gender", question_text := "Patient Gender",
        answer := AnswerValue.str "Male" }).answer =
      some [{ valueCoding := some
                { system := "http://hl7.org/fhir/administrative-gender",
                  code := "male", display := "Male" } }] ∧
    (convertWegovyItemToFhir
      { question_id := "patient-gender", question_text := "Patient Gender",
        answer := AnswerValue.str "Female" }).answer =
      some [{ valueCoding := some
                { system := "http://hl7.org/fhir/administrative-gender",
                  code := "female", display := "Female" } }] ∧
    (convertWegovyItemToFhir
      { question_id := "patient-gender", question_text := "Patient Gender",
        answer := AnswerValue.str "Other" }).answer =
      some [{ valueCoding := some
                { system := "http://hl7.org/fhir/administrative-gender",
                  code := "other", display := "Other" } }] ∧
    ((CHOICE_MAPPINGS.lookup "patient-gender").bind (fun m => m.lookup "Unknown")) =
      none ∧
    ((CHOICE_MAPPINGS.lookup "patient-gender").bind (fun m => m.lookup "unknown")) =
      none ∧
    ∀ v : String, v ∉ (["Male", "Female", "Other"] : List String) →
      (convertWegovyItemToFhir
        { question_id := "patient-gender", question_text := "Patient Gender",
          answer := AnswerValue.str v }).answer = some [{ valueString := some v }] := by
  refine ⟨by decide, by decide, by decide, by decide, by decide, fun v hv => ?_⟩
  obtain ⟨hv1, hv2, hv3⟩ : v ≠ "Male" ∧ v ≠ "Female" ∧ v ≠ "Other" := by
    simpa [not_or] using hv
  have hb1 : (v == "Male") = false := beq_eq_false_iff_ne.mpr hv1
  have hb2 : (v == "Female") = false := beq_eq_false_iff_ne.mpr hv2
  have hb3 : (v == "Other") = false := beq_eq_false_iff_ne.mpr hv3
  have hq : (QUESTION_TYPE_MAP.lookup "patient-gender").getD QType.string =
      QType.choice := by decide
  have hm : CHOICE_MAPPINGS.lookup "patient-gender" =
      some [("Male",
             { system := "http://hl7.org/fhir/administrative-gender", code := "male",
               display := "Male" }),
            ("Female",
             { system := "http://hl7.org/fhir/administrative-gender", code := "female",
               display := "Female" }),
            ("Other",
             { system := "http://hl7.org/fhir/administrative-gender", code := "other",
               display := "Other" })] := by decide
  have hnone : List.lookup v
      [("Male",
        ({ system := "http://hl7.org/fhir/administrative-gender", code := "male",
           display := "Male" } : FhirCoding)),
       ("Female",
        { system := "http://hl7.org/fhir/administrative-gender", code := "female",
          display := "Female" }),
       ("Other",
        { system := "http://hl7.org/fhir/administrative-gender", code := "other",
          display := "Other" })] = none := by
    simp only [List.lookup, hb1, hb2, hb3]
  simp only [convertWegovyItemToFhir, hq]
  simp only [getAnswerAsStringArray, getAnswerAsString, List.map_cons, List.map_nil,
    hm, Option.some_bind, hnone]
  rfl

/-- C10 witness: the lowercase value female is not an exact table key, so the
schema-aware converter falls back to a valueString for it. -/
theorem c10_case_sensitive_witness :
    (convertWegovyItemToFhir
      { question_id := "patient-gender", question_text := "Patient Gender",
        answer := AnswerValue.str "FEMALE" }).answer =
      some [{ valueString := some "FEMALE" }] :=
  c10_case_sensitive_choice.2.2.2.2.2 "FEMALE" (by decide)

/-- C8 witness: an item with a null answer at position 0 makes the whole
validation invalid. -/
theorem c8_item_errors_witness :
    (validateWegovyOutput (WegovyValidationInput.array
      [{ question_id := "patient-age", question_text := "Age",
         answer := none }])).isValid = false := by
  have h := (c8_item_errors
    [{ question_id := "patient-age", question_text := "Age", answer := none }]
    (by decide)).1
  revert h
  decide
